import Mathlib

/-!
Shallow embedding of the go-errx library (package errx): a typed error value
carrying a classification code, a message and an optional cause, together with
the chain-walking helpers (IsCode, GetCode, GetMessage), the Wrap / WrapIfErr
functions and the fluent Builder.

Go error values in a cause chain are modelled by the inductive `GoErr`: a chain
element is either an errx typed error (the `*Error` struct, carried as its three
fields) or a foreign error, which has its own string form and an optional cause
(its `Unwrap` result, `none` when it does not unwrap).  Nil error interface
values are modelled by `Option GoErr`, absent being `none`.
-/

/-- Code represents a categorized error type (a string newtype in the source). -/
abbrev Code := String

/-- Standard error code: resource conflicts with existing data. -/
def Conflict : Code := "CONFLICT"

/-- Standard error code: internal server or system errors. -/
def Internal : Code := "INTERNAL"

/-- Standard error code: resource not found. -/
def NotFound : Code := "NOT_FOUND"

/-- Standard error code: invalid input or parameters. -/
def BadRequest : Code := "BAD_REQUEST"

/-- Standard error code: resource already exists. -/
def AlreadyExists : Code := "ALREADY_EXISTS"

/-- Standard error code: authentication required. -/
def Unauthorized : Code := "UNAUTHORIZED"

/-- Standard error code: permission denied. -/
def Forbidden : Code := "FORBIDDEN"

/-- Standard error code: operation timed out. -/
def Timeout : Code := "TIMEOUT"

/-- Standard error code: input validation failed. -/
def Validation : Code := "VALIDATION"

/-- A Go error value as it can occur in a cause chain: either the errx typed
error (fields Code, Message, Err of the `Error` struct) or a foreign error with
its own `Error()` string and the optional result of its `Unwrap` method. -/
inductive GoErr where
  | typed (code : Code) (message : String) (cause : Option GoErr)
  | foreign (msg : String) (cause : Option GoErr)

/-- The errx `Error` struct: an application-specific error with code and
context.  Field names follow the source: Code, Message, Err. -/
structure Error where
  Code : Code
  Message : String
  Err : Option GoErr

/-- View an errx Error through the Go `error` interface (the implicit
conversion from `*Error` to `error`). -/
def Error.toGoErr (e : Error) : GoErr :=
  GoErr.typed e.Code e.Message e.Err

/-- The `Error() string` method of whatever error sits in the chain.  For a
typed error this is the source's `(e *Error) Error()`:
`fmt.Sprintf("[%s] %s: %v", e.Code, e.Message, e.Err)` when `e.Err != nil`
(where the `%v` verb renders the cause by calling its own `Error()` method),
and `fmt.Sprintf("[%s] %s", e.Code, e.Message)` otherwise.  A foreign error
renders as its own stored string. -/
def GoErr.errString : GoErr → String
  | GoErr.typed code message (some cause) =>
      "[" ++ code ++ "] " ++ message ++ ": " ++ cause.errString
  | GoErr.typed code message none =>
      "[" ++ code ++ "] " ++ message
  | GoErr.foreign msg _ => msg

/-- The `(e *Error) Error() string` method, via the interface view. -/
def Error.errString (e : Error) : String :=
  e.toGoErr.errString

/-- The `(e *Error) Unwrap() error` method: returns the wrapped error. -/
def Error.Unwrap (e : Error) : Option GoErr :=
  e.Err

/-- The `Unwrap` step of an arbitrary chain element, as used by the standard
library chain walk. -/
def GoErr.unwrap : GoErr → Option GoErr
  | GoErr.typed _ _ cause => cause
  | GoErr.foreign _ cause => cause

/-- Model of `errors.As(err, &t)` for `t *Error`: walk the chain starting at
`err`, stopping at the first element that is a `*Error` and returning its
fields; walking ends when an element has no further cause.  Returns `none`
when no typed error occurs in the chain. -/
def errorsAs : GoErr → Option Error
  | GoErr.typed code message cause => some ⟨code, message, cause⟩
  | GoErr.foreign _ none => none
  | GoErr.foreign _ (some cause) => errorsAs cause

/-- The `(e *Error) Is(target error) bool` method: `errors.As(target, &t)` then
compare codes; false when the resolution fails (also when target is nil, since
`errors.As` on a nil error returns false). -/
def Error.Is (e : Error) (target : Option GoErr) : Bool :=
  match target with
  | none => false
  | some t =>
      match errorsAs t with
      | none => false
      | some found => e.Code == found.Code

/-- `IsCode(err, code)`: checks if an error has a specific error code.  False
for nil; otherwise resolve the chain with `errors.As` and compare the found
typed error's code; false when no typed error is in the chain. -/
def IsCode (err : Option GoErr) (code : Code) : Bool :=
  match err with
  | none => false
  | some e =>
      match errorsAs e with
      | some found => found.Code == code
      | none => false

/-- `GetCode(err)`: extracts the error code from an error.  Empty string for
nil, the found typed error's code when the chain has one, Internal otherwise. -/
def GetCode (err : Option GoErr) : Code :=
  match err with
  | none => ""
  | some e =>
      match errorsAs e with
      | some found => found.Code
      | none => Internal

/-- `GetMessage(err)`: extracts the user-friendly message from an error.
Empty string for nil, the found typed error's message when the chain has one,
otherwise the foreign error's own `Error()` string. -/
def GetMessage (err : Option GoErr) : String :=
  match err with
  | none => ""
  | some e =>
      match errorsAs e with
      | some found => found.Message
      | none => e.errString

/-- Builder provides a fluent API for building Errors. -/
structure Builder where
  code : Code
  message : String
  err : Option GoErr

/-- `WithMessage` sets a descriptive message for the error. -/
def Builder.WithMessage (b : Builder) (msg : String) : Builder :=
  { b with message := msg }

/-- `WithCause` sets the underlying cause of the error. -/
def Builder.WithCause (b : Builder) (e : Option GoErr) : Builder :=
  { b with err := e }

/-- `Build` creates and returns the final Error from the builder's fields. -/
def Builder.Build (b : Builder) : Error :=
  ⟨b.code, b.message, b.err⟩

/-- `WithDescription` is a legacy method: sets the message and immediately
returns the built Error. -/
def Builder.WithDescription (b : Builder) (desc : String) : Error :=
  Builder.Build { b with message := desc }

/-- `WithDescriptionAndCause` is a legacy method: sets message and cause and
immediately returns the built Error. -/
def Builder.WithDescriptionAndCause (b : Builder) (desc : String)
    (cause : Option GoErr) : Error :=
  Builder.Build { b with message := desc, err := cause }

/-- The builder's `Error()` method: returns the built Error as an error
interface value. -/
def Builder.Error (b : Builder) : GoErr :=
  b.Build.toGoErr

/-- `New(code)` creates a new Builder with the specified code. -/
def New (code : Code) : Builder :=
  ⟨code, "", none⟩

/-- `NewBadRequest` creates an error builder for BadRequest errors. -/
def NewBadRequest : Builder := ⟨BadRequest, "", none⟩

/-- `NewNotFound` creates an error builder for NotFound errors. -/
def NewNotFound : Builder := ⟨NotFound, "", none⟩

/-- `NewConflict` creates an error builder for Conflict errors. -/
def NewConflict : Builder := ⟨Conflict, "", none⟩

/-- `NewInternal` creates an error builder for Internal errors. -/
def NewInternal : Builder := ⟨Internal, "", none⟩

/-- `Wrap(err, code, message)` creates an Error that wraps an existing error
with the given code; nil in, nil out. -/
def Wrap (err : Option GoErr) (code : Code) (message : String) : Option Error :=
  match err with
  | none => none
  | some e => some ⟨code, message, some e⟩

/-- `WrapIfErr(err, code, message)` wraps an error only if it is not nil,
returning the result through the `error` interface view. -/
def WrapIfErr (err : Option GoErr) (code : Code) (message : String) :
    Option GoErr :=
  match err with
  | none => none
  | some _ => (Wrap err code message).map Error.toGoErr

/-- C1: for every typed error, the string representation is
`"[<code>] <message>: <cause-string>"` when a cause is present, where the
cause-string is the cause's own string representation, and
`"[<code>] <message>"` when the cause is absent. -/
theorem claim_c1_errString_layout :
    (∀ (c : Code) (m : String) (k : GoErr),
      Error.errString ⟨c, m, some k⟩ = "[" ++ c ++ "] " ++ m ++ ": " ++ k.errString)
    ∧ (∀ (c : Code) (m : String),
      Error.errString ⟨c, m, none⟩ = "[" ++ c ++ "] " ++ m) :=
  ⟨fun _ _ _ => rfl, fun _ _ => rfl⟩

/-- Unfolding lemma for the Is method on a non-nil target. -/
theorem Error.Is_some (e : Error) (t : GoErr) :
    e.Is (some t) = (match errorsAs t with
      | none => false
      | some found => e.Code == found.Code) := rfl

/-- C2: the Is method of a typed error succeeds exactly when the chain walk
over the target resolves to a typed error whose code equals the receiver's
code; the receiver's message and cause are irrelevant, and a target chain
with no typed error (or a nil target) never matches. -/
theorem claim_c2_is_matches :
    ∀ (e : Error) (target : GoErr),
      (e.Is (some target) = true ↔
        ∃ found : Error, errorsAs target = some found ∧ found.Code = e.Code)
      ∧ (∀ (m : String) (k : Option GoErr),
          Error.Is ⟨e.Code, m, k⟩ (some target) = e.Is (some target))
      ∧ (errorsAs target = none → e.Is (some target) = false)
      ∧ e.Is none = false := by
  intro e target
  refine ⟨?_, ?_, ?_, rfl⟩
  · cases h : errorsAs target with
    | none => rw [Error.Is_some, h]; simp
    | some found =>
      rw [Error.Is_some, h]
      simp only [beq_iff_eq, Option.some_inj]
      constructor
      · intro hc
        exact ⟨found, rfl, hc.symm⟩
      · rintro ⟨f, hf, hfc⟩
        rw [← hf] at hfc
        exact hfc.symm
  · intro m k
    cases h : errorsAs target with
    | none => rw [Error.Is_some, Error.Is_some, h]
    | some found => rw [Error.Is_some, Error.Is_some, h]
  · intro h
    rw [Error.Is_some, h]

/-- C2 witness: a target whose chain holds no typed error never matches. -/
theorem claim_c2_is_matches_witness :
    errorsAs (GoErr.foreign "io failure" none) = none
    ∧ Error.Is ⟨"A", "m", none⟩ (some (GoErr.foreign "io failure" none)) = false :=
  ⟨rfl,
    (claim_c2_is_matches ⟨"A", "m", none⟩ (GoErr.foreign "io failure" none)).2.2.1 rfl⟩

/-- C3: GetCode returns the empty string on nil, the code of the typed error
found in the chain when one exists, and Internal for every non-nil error
whose chain holds no typed error. -/
theorem claim_c3_getCode :
    GetCode none = ""
    ∧ (∀ (e : GoErr) (found : Error), errorsAs e = some found →
        GetCode (some e) = found.Code)
    ∧ (∀ e : GoErr, errorsAs e = none → GetCode (some e) = Internal) := by
  refine ⟨rfl, ?_, ?_⟩
  · intro e found h
    simp [GetCode, h]
  · intro e h
    simp [GetCode, h]

/-- C3 witness: a concrete typed error yields its code, a concrete foreign
error yields Internal. -/
theorem claim_c3_getCode_witness :
    errorsAs (GoErr.typed NotFound "user not found" none)
      = some ⟨NotFound, "user not found", none⟩
    ∧ GetCode (some (GoErr.typed NotFound "user not found" none)) = NotFound
    ∧ errorsAs (GoErr.foreign "io failure" none) = none
    ∧ GetCode (some (GoErr.foreign "io failure" none)) = Internal :=
  ⟨rfl, claim_c3_getCode.2.1 _ ⟨NotFound, "user not found", none⟩ rfl,
    rfl, claim_c3_getCode.2.2 _ rfl⟩

/-- C4: Wrap is nil on nil, and on a non-nil error returns a typed error with
the given code and message whose cause, and Unwrap result, is exactly the
wrapped error. -/
theorem claim_c4_wrap :
    (∀ (c : Code) (m : String), Wrap none c m = none)
    ∧ (∀ (e : GoErr) (c : Code) (m : String), ∃ w : Error,
        Wrap (some e) c m = some w ∧ w.Code = c ∧ w.Message = m
        ∧ w.Err = some e ∧ w.Unwrap = some e) :=
  ⟨fun _ _ => rfl, fun e c m => ⟨⟨c, m, some e⟩, rfl, rfl, rfl, rfl, rfl⟩⟩

/-- C5: IsCode on a wrapped error is true at the wrapping code and false at
every other code, for every wrapped error, including a typed one bearing the
other code (the chain walk finds the outermost typed error first). -/
theorem claim_c5_isCode_wrap :
    ∀ (e : GoErr) (c c2 : Code) (m : String), c2 ≠ c →
      IsCode ((Wrap (some e) c m).map Error.toGoErr) c = true
      ∧ IsCode ((Wrap (some e) c m).map Error.toGoErr) c2 = false := by
  intro e c c2 m hne
  constructor
  · show (c == c) = true
    exact beq_self_eq_true c
  · show (c == c2) = false
    exact beq_eq_false_iff_ne.mpr (Ne.symm hne)

/-- C5 witness: wrapping a typed error of code B under code A matches A and
not B. -/
theorem claim_c5_isCode_wrap_witness :
    ("B" : Code) ≠ "A"
    ∧ IsCode ((Wrap (some (GoErr.typed "B" "inner" none)) "A" "outer").map
        Error.toGoErr) "A" = true
    ∧ IsCode ((Wrap (some (GoErr.typed "B" "inner" none)) "A" "outer").map
        Error.toGoErr) "B" = false :=
  ⟨by decide,
    claim_c5_isCode_wrap (GoErr.typed "B" "inner" none) "A" "B" "outer" (by decide)⟩

/-- C6: WrapIfErr is nil on nil and otherwise returns exactly the value of
Wrap viewed through the error interface. -/
theorem claim_c6_wrapIfErr :
    ∀ (err : Option GoErr) (c : Code) (m : String),
      WrapIfErr err c m = (Wrap err c m).map Error.toGoErr
      ∧ WrapIfErr none c m = none := by
  intro err c m
  cases err <;> exact ⟨rfl, rfl⟩

/-- C7: the legacy shortcuts WithDescription and WithDescriptionAndCause
produce the same typed error, with the same string form, as the fluent
WithMessage/WithCause/Build path. -/
theorem claim_c7_legacy_equiv :
    ∀ (b : Builder) (d : String) (c : Option GoErr),
      b.WithDescription d = (b.WithMessage d).Build
      ∧ b.WithDescriptionAndCause d c = ((b.WithMessage d).WithCause c).Build
      ∧ (b.WithDescription d).errString = ((b.WithMessage d).Build).errString
      ∧ (b.WithDescriptionAndCause d c).errString
          = (((b.WithMessage d).WithCause c).Build).errString :=
  fun _ _ _ => ⟨rfl, rfl, rfl, rfl⟩

/-- C8: GetMessage returns the empty string on nil, the message of the typed
error found in the chain when one exists, and otherwise the foreign error's
own string representation. -/
theorem claim_c8_getMessage :
    GetMessage none = ""
    ∧ (∀ (e : GoErr) (found : Error), errorsAs e = some found →
        GetMessage (some e) = found.Message)
    ∧ (∀ e : GoErr, errorsAs e = none → GetMessage (some e) = e.errString) := by
  refine ⟨rfl, ?_, ?_⟩
  · intro e found h
    simp [GetMessage, h]
  · intro e h
    simp [GetMessage, h]

/-- C8 witness: the typed message is extracted; a foreign error yields its own
string. -/
theorem claim_c8_getMessage_witness :
    errorsAs (GoErr.typed BadRequest "invalid input" none)
      = some ⟨BadRequest, "invalid input", none⟩
    ∧ GetMessage (some (GoErr.typed BadRequest "invalid input" none))
      = "invalid input"
    ∧ errorsAs (GoErr.foreign "disk full" none) = none
    ∧ GetMessage (some (GoErr.foreign "disk full" none)) = "disk full" :=
  ⟨rfl, claim_c8_getMessage.2.1 _ ⟨BadRequest, "invalid input", none⟩ rfl,
    rfl, claim_c8_getMessage.2.2 (GoErr.foreign "disk full" none) rfl⟩

/-- C9: the public surface is total; every function embeds as a total Lean
function, and absent input is answered by the documented default: false for
IsCode, empty string for GetCode and GetMessage, absent for Wrap and
WrapIfErr, false for the Is method on a nil target, and Unwrap simply
returns the stored cause. -/
theorem claim_c9_totality_defaults :
    ∀ (c : Code) (m : String) (e : Error),
      IsCode none c = false ∧ GetCode none = "" ∧ GetMessage none = ""
      ∧ Wrap none c m = none ∧ WrapIfErr none c m = none
      ∧ e.Is none = false ∧ e.Unwrap = e.Err :=
  fun _ _ _ => ⟨rfl, rfl, rfl, rfl, rfl, rfl, rfl⟩

/-- C10: on a non-nil error whose chain has no typed error, GetCode answers
Internal while IsCode at Internal answers false, so GetCode equal to a code
does not imply IsCode at that code. -/
theorem claim_c10_fallback_divergence :
    (∀ e : GoErr, errorsAs e = none →
      GetCode (some e) = Internal ∧ IsCode (some e) Internal = false)
    ∧ ∃ (err : Option GoErr) (c : Code), GetCode err = c ∧ IsCode err c = false := by
  constructor
  · intro e h
    exact ⟨by simp [GetCode, h], by simp [IsCode, h]⟩
  · exact ⟨some (GoErr.foreign "boom" none), Internal, rfl, rfl⟩

/-- C10 witness: a concrete foreign error is classified Internal by GetCode
yet rejected by IsCode at Internal. -/
theorem claim_c10_fallback_divergence_witness :
    errorsAs (GoErr.foreign "boom" none) = none
    ∧ GetCode (some (GoErr.foreign "boom" none)) = Internal
    ∧ IsCode (some (GoErr.foreign "boom" none)) Internal = false :=
  ⟨rfl, (claim_c10_fallback_divergence.1 (GoErr.foreign "boom" none) rfl).1,
    (claim_c10_fallback_divergence.1 (GoErr.foreign "boom" none) rfl).2⟩
